import Mathlib

/-
Verification development for the SNACKAI-CoCo-Meshtastic telemetry pipeline.

Shallow embedding of the pipeline core:
  * `meshtastic_interface.py` — `MeshtasticReceiver._on_receive` and the
    `_parse_*_packet` helpers (packet normalizer);
  * `snowpipe_streaming_client.py` — `SnowpipeStreamingClient.append_rows`,
    `insert_rows`, `_ensure_valid_token` (streaming client state machine),
    and the nested `convert_value` sanitizer;
  * `meshtastic_snowflake_streamer.py` — `_flush_batch` and the
    `_streaming_worker` batching loop.

Modelling conventions: Python's dynamically typed values are embedded as the
inductive `PyVal`; operations that can raise a Python exception return
`Except Unit`; Python floats are modelled as rationals (the claims under
verification concern exact arithmetic identities, not rounding); wall-clock
times are naturals; the HTTP POST of an append is an external event, so its
outcome (`PostOutcome`) is a parameter of the transition function.
-/

/-- Python runtime value as seen by the packet parsers: `None`, booleans,
ints, floats (as rationals), strings, lists, and dicts (association lists,
keys unique in real packets so first-match lookup is faithful). -/
inductive PyVal where
  | none
  | bool (b : Bool)
  | int (i : Int)
  | rat (q : ℚ)
  | str (s : String)
  | list (xs : List PyVal)
  | dict (entries : List (String × PyVal))

/-- Entry list of a Python dict. -/
abbrev PyDict := List (String × PyVal)

/-- Dictionary lookup (`d[k]` / `k in d`), first match wins. -/
def dlookup : PyDict → String → Option PyVal
  | [], _ => Option.none
  | (k', v) :: rest, k => if k' = k then some v else dlookup rest k

/-- Python truthiness (`bool(v)`), as used by `if lat is None and
position.get("latitudeI"):` and `if not rows:`. -/
def pyTruthy : PyVal → Bool
  | .none => false
  | .bool b => b
  | .int i => decide (i ≠ 0)
  | .rat q => decide (q ≠ 0)
  | .str s => !s.isEmpty
  | .list xs => !xs.isEmpty
  | .dict es => !es.isEmpty

/-- Python `str(v)` for the values the receiver stringifies (port numbers and
node ids). Container renderings are abbreviated: no verified claim inspects
them, only substring tests on int/string port codes. -/
def pyStrOf : PyVal → String
  | .none => "None"
  | .bool b => if b then ("True") else ("False")
  | .int i => toString i
  | .rat q => toString q
  | .str s => s
  | .list _ => "<list>"
  | .dict _ => "<dict>"

/-- Prefix test on character lists (no library dependence). -/
def listPrefix : List Char → List Char → Bool
  | [], _ => true
  | _ :: _, [] => false
  | a :: as, b :: bs => a == b && listPrefix as bs

/-- Does `pat` occur as a contiguous run inside `l`? -/
def subOccurs (pat : List Char) : List Char → Bool
  | [] => pat.isEmpty
  | c :: rest => listPrefix pat (c :: rest) || subOccurs pat rest

/-- Python's `pat in s` substring test. -/
def strContains (s pat : String) : Bool :=
  subOccurs pat.toList s.toList

/-- Python `portnum == n` for an int literal `n` (Python compares numerics
across int/float/bool; strings never equal ints). -/
def pyEqInt (v : PyVal) (n : Int) : Bool :=
  match v with
  | .int i => decide (i = n)
  | .rat q => decide (q = (n : ℚ))
  | .bool b => decide ((if b then (1 : Int) else 0) = n)
  | _ => false

/-- The `packet_type` tag set by the `_parse_*_packet` helpers. -/
inductive PacketKind where
  | position
  | text
  | telemetry
  | nodeinfo
  | raw
deriving DecidableEq, Repr

/-- Normalized reading produced by `_on_receive` (the fields the verified
claims reference; the remaining columns of the row dict are assembled the
same way from `get` calls that cannot raise and are not modelled). Absent
values are `PyVal.none`, exactly like the Python `None` they carry. -/
structure Message where
  packetType : PacketKind
  fromId : PyVal
  latitude : PyVal
  longitude : PyVal
  text : PyVal

/-- `_parse_packet`: builds the base message. For a dict packet this function
is total in the source (only `get` calls and `str`). -/
def parsePacket (pes : PyDict) : Message :=
  let fromIdRaw := (dlookup pes ("fromId")).getD ((dlookup pes ("from")).getD .none)
  { packetType := .raw
    fromId := if pyTruthy fromIdRaw then .str (pyStrOf fromIdRaw) else .none
    latitude := .none
    longitude := .none
    text := .none }

/-- Division by `1e7` as Python performs it in `latitudeI / 1e7`: defined for
numerics, a `TypeError` otherwise. -/
def pyDivTen7 : PyVal → Except Unit PyVal
  | .int i => .ok (.rat ((i : ℚ) / 10000000))
  | .rat q => .ok (.rat (q / 10000000))
  | .bool b => .ok (.rat ((if b then (1 : ℚ) else 0) / 10000000))
  | _ => .error ()

/-- The coordinate resolution of `_parse_position_packet`:
`lat = position.get("latitude")`, then
`if lat is None and position.get("latitudeI"): lat = latitudeI / 1e7`.
Note the truthiness test: a fixed-point value of `0` is falsy and the
coordinate stays `None`. -/
def resolveCoord (raw fixed : PyVal) : Except Unit PyVal :=
  match raw with
  | .none => if pyTruthy fixed then pyDivTen7 fixed else .ok .none
  | v => .ok v

/-- `_parse_position_packet`: raises (is dropped) when `decoded["position"]`
is present and not a dict, or a fixed-point coordinate is truthy yet
non-numeric; otherwise yields a `position` reading. -/
def parsePositionPacket (pes decoded : PyDict) : Except Unit Message :=
  match (dlookup decoded ("position")).getD (.dict []) with
  | .dict pos =>
    match resolveCoord ((dlookup pos ("latitude")).getD .none)
            ((dlookup pos ("latitudeI")).getD .none),
          resolveCoord ((dlookup pos ("longitude")).getD .none)
            ((dlookup pos ("longitudeI")).getD .none) with
    | .ok lat, .ok lon =>
        .ok { parsePacket pes with
                packetType := .position
                latitude := lat
                longitude := lon }
    | .error _, _ => .error ()
    | _, .error _ => .error ()
  | _ => .error ()

/-- `_parse_text_packet`: total for dict inputs. -/
def parseTextPacket (pes decoded : PyDict) : Message :=
  { parsePacket pes with
      packetType := .text
      text := (dlookup decoded ("text")).getD (.str ("")) }

/-- The `temperature_f` derivation `(t * 9/5) + 32` of
`_parse_telemetry_packet`; raises on a truthy non-numeric temperature. -/
def tempFahrenheit : PyVal → Except Unit PyVal
  | .none => .ok .none
  | .int i => .ok (.rat ((i : ℚ) * 9 / 5 + 32))
  | .rat q => .ok (.rat (q * 9 / 5 + 32))
  | .bool b => .ok (.rat ((if b then (1 : ℚ) else 0) * 9 / 5 + 32))
  | _ => .error ()

/-- `_parse_telemetry_packet`: the four metric sub-dicts are fetched with
`get(..., {})` (raising when present but not a dict), then `temperature_f`
is derived. Only the raising structure and the resulting `packet_type` are
relevant to the claims. -/
def parseTelemetryPacket (pes decoded : PyDict) : Except Unit Message :=
  match (dlookup decoded ("telemetry")).getD (.dict []) with
  | .dict tel =>
    match (dlookup tel ("deviceMetrics")).getD (.dict []),
          (dlookup tel ("environmentMetrics")).getD (.dict []),
          (dlookup tel ("powerMetrics")).getD (.dict []),
          (dlookup tel ("airQualityMetrics")).getD (.dict []) with
    | .dict _dev, .dict env, .dict _pow, .dict _air =>
      match tempFahrenheit ((dlookup env ("temperature")).getD .none) with
      | .ok _ => .ok { parsePacket pes with packetType := .telemetry }
      | .error _ => .error ()
    | _, _, _, _ => .error ()
  | _ => .error ()

/-- `_parse_nodeinfo_packet`: raises when `decoded["user"]` is present and
not a dict. -/
def parseNodeinfoPacket (pes decoded : PyDict) : Except Unit Message :=
  match (dlookup decoded ("user")).getD (.dict []) with
  | .dict _user => .ok { parsePacket pes with packetType := .nodeinfo }
  | _ => .error ()

/-- The `is_position` boolean of `_on_receive`:
`"POSITION" in portnum_str or portnum == 3 or "position" in decoded`. -/
def isPositionOf (decoded : PyDict) : Bool :=
  let portnum := (dlookup decoded ("portnum")).getD (.str (""))
  strContains (pyStrOf portnum) ("POSITION") || pyEqInt portnum 3 ||
    (dlookup decoded ("position")).isSome

/-- The `is_text` boolean of `_on_receive`. -/
def isTextOf (decoded : PyDict) : Bool :=
  let portnum := (dlookup decoded ("portnum")).getD (.str (""))
  strContains (pyStrOf portnum) ("TEXT") || pyEqInt portnum 1 ||
    (dlookup decoded ("text")).isSome

/-- The `is_telemetry` boolean of `_on_receive`. -/
def isTelemetryOf (decoded : PyDict) : Bool :=
  let portnum := (dlookup decoded ("portnum")).getD (.str (""))
  strContains (pyStrOf portnum) ("TELEMETRY") || pyEqInt portnum 67 ||
    (dlookup decoded ("telemetry")).isSome

/-- The `is_nodeinfo` boolean of `_on_receive`. -/
def isNodeinfoOf (decoded : PyDict) : Bool :=
  let portnum := (dlookup decoded ("portnum")).getD (.str (""))
  strContains (pyStrOf portnum) ("NODEINFO") || pyEqInt portnum 4 ||
    (dlookup decoded ("user")).isSome

/-- `_on_receive` up to (but not including) the enclosing `try/except`:
computes the `is_position` / `is_text` / `is_telemetry` / `is_nodeinfo`
booleans and dispatches through the `if/elif` chain. A non-dict packet or a
non-dict `decoded` raises at the first attribute access. -/
def onReceiveE (packet : PyVal) : Except Unit Message :=
  match packet with
  | .dict pes =>
    match (dlookup pes ("decoded")).getD (.dict []) with
    | .dict decoded =>
      if isPositionOf decoded then parsePositionPacket pes decoded
      else if isTextOf decoded then .ok (parseTextPacket pes decoded)
      else if isTelemetryOf decoded then parseTelemetryPacket pes decoded
      else if isNodeinfoOf decoded then parseNodeinfoPacket pes decoded
      else .ok (parsePacket pes)
    | _ => .error ()
  | _ => .error ()

/-- `_on_receive` with its enclosing `try/except Exception`: any raised
exception is swallowed and the packet yields nothing. The callback therefore
never propagates an exception (totality of this function). -/
def onReceive (packet : PyVal) : Option Message :=
  match onReceiveE packet with
  | .ok m => some m
  | .error _ => Option.none

/-- The tail of `_on_receive`: `if message:` append to `message_queue` and
invoke the callback. Every produced message dict is non-empty hence truthy.
Returns the new queue and whether the callback ran. -/
def processPacket (queue : List Message) (packet : PyVal) :
    List Message × Bool :=
  match onReceive packet with
  | some m => (queue ++ [m], true)
  | Option.none => (queue, false)

/-- The classification rule of `_on_receive` as a standalone function: each
kind matches when its port code or its payload key is present, and the
`if/elif` chain gives the priority position > text > telemetry > nodeinfo >
raw, first match winning. -/
def detectKind (decoded : PyDict) : PacketKind :=
  if isPositionOf decoded then .position
  else if isTextOf decoded then .text
  else if isTelemetryOf decoded then .telemetry
  else if isNodeinfoOf decoded then .nodeinfo
  else .raw

/-
Streaming client (`snowpipe_streaming_client.py`). The cumulative statistics
dict and the session fields of `SnowpipeStreamingClient`; `append_rows` is a
state transition whose HTTP POST outcome is an external parameter. Rows are
abstract (type parameter): the serialized byte count of a batch enters only
through the `bytesOf` parameter, and the row sanitizer itself is verified
separately as `convertValue` below.
-/

/-- The `self.stats` dict of the streaming client. -/
structure ClientStats where
  rowsSent : Nat
  batches : Nat
  bytesSent : Nat
  errors : Nat
deriving DecidableEq, Repr

/-- Channel-session state of `SnowpipeStreamingClient`. -/
structure ClientState where
  ingestHost : Option String
  continuationToken : Option String
  offsetToken : Int
  scopedToken : Option String
  tokenExpiry : Option Nat
  stats : ClientStats
deriving DecidableEq, Repr

/-- Python truthiness of an optional string field (`not self.ingest_host`). -/
def otruthy : Option String → Bool
  | Option.none => false
  | some s => !s.isEmpty

/-- The refresh condition of `_ensure_valid_token`:
`self.scoped_token is None or (self.token_expiry and time.time() >= self.token_expiry)`
(note the truthiness of `token_expiry`: an expiry of `0` is falsy). -/
def needsRefresh (st : ClientState) (now : Nat) : Bool :=
  st.scopedToken.isNone ||
    (match st.tokenExpiry with
     | some e => decide (e ≠ 0) && decide (e ≤ now)
     | Option.none => false)

/-- `_ensure_valid_token`: refreshes the cached credential when needed. The
token value obtained from the auth provider is the parameter `freshTok`
(the static-token variant never fails; the expiry estimate is
`time.time() + 3000`). -/
def ensureValidToken (st : ClientState) (now : Nat) (freshTok : String) :
    ClientState :=
  if needsRefresh st now then
    { st with scopedToken := some freshTok, tokenExpiry := some (now + 3000) }
  else st

/-- Outcome of the append HTTP POST: success carries the
`next_continuation_token` of the response (absent when the server omits it);
failure is any `requests.exceptions.RequestException` (timeout, 4xx/5xx). -/
inductive PostOutcome where
  | success (nextTok : Option String)
  | failure
deriving DecidableEq, Repr

/-- Exceptions `append_rows` can raise. -/
inductive AppendError where
  | channelNotOpened
  | requestError
deriving DecidableEq, Repr

/-- Result value of `append_rows`: the empty dict for an empty row list, or
the response data (of which only `next_continuation_token` is consumed). -/
inductive AppendResult where
  | empty
  | data (nextTok : Option String)
deriving DecidableEq, Repr

/-- `SnowpipeStreamingClient.append_rows` as a state transition. Returns the
post-call session state and either the result or the raised exception. -/
def appendRows {Row : Type} (bytesOf : List Row → Nat) (st : ClientState)
    (now : Nat) (freshTok : String) (rows : List Row)
    (outcome : PostOutcome) : ClientState × Except AppendError AppendResult :=
  if rows.isEmpty then (st, .ok .empty)
  else if !otruthy st.ingestHost || !otruthy st.continuationToken then
    (st, .error .channelNotOpened)
  else
    let st1 := ensureValidToken st now freshTok
    let newOffset := st1.offsetToken + 1
    match outcome with
    | .failure =>
      ({ st1 with stats := { st1.stats with errors := st1.stats.errors + 1 } },
       .error .requestError)
    | .success nextTok =>
      ({ st1 with
          continuationToken := nextTok
          offsetToken := newOffset
          stats := { st1.stats with
                      rowsSent := st1.stats.rowsSent + rows.length
                      batches := st1.stats.batches + 1
                      bytesSent := st1.stats.bytesSent + bytesOf rows } },
       .ok (.data nextTok))

/-- `SnowpipeStreamingClient.insert_rows`: early-returns `0` on an empty
list, otherwise delegates to `append_rows` and returns `len(rows)`. -/
def insertRows {Row : Type} (bytesOf : List Row → Nat) (st : ClientState)
    (now : Nat) (freshTok : String) (rows : List Row)
    (outcome : PostOutcome) : ClientState × Except AppendError Nat :=
  if rows.isEmpty then (st, .ok 0)
  else
    match appendRows bytesOf st now freshTok rows outcome with
    | (st', .ok _) => (st', .ok rows.length)
    | (st', .error e) => (st', .error e)

/-
Batcher (`meshtastic_snowflake_streamer.py`): `_flush_batch` and the
`_streaming_worker` loop.
-/

/-- The `self.stats` dict of `MeshtasticSnowflakeStreamer`. -/
structure StreamerStats where
  received : Nat
  sent : Nat
  batchesSent : Nat
  errors : Nat
deriving DecidableEq, Repr

/-- Streamer state: the owned streaming client plus session statistics. -/
structure StreamerState where
  client : ClientState
  sStats : StreamerStats
deriving DecidableEq, Repr

/-- `_flush_batch`: prepares one row per message, hands the batch to
`insert_rows`, and catches every exception, counting it as one error.
Returns the new state and the success flag (ignored by the worker). -/
def flushBatch {Msg Row : Type} (prepareRow : Msg → Row)
    (bytesOf : List Row → Nat) (st : StreamerState) (now : Nat)
    (freshTok : String) (messages : List Msg) (outcome : PostOutcome) :
    StreamerState × Bool :=
  if messages.isEmpty then (st, true)
  else
    let rows := messages.map prepareRow
    match insertRows bytesOf st.client now freshTok rows outcome with
    | (c', .ok n) =>
      ({ client := c'
         sStats := { st.sStats with
                      sent := st.sStats.sent + n
                      batchesSent := st.sStats.batchesSent + 1 } }, true)
    | (c', .error _) =>
      ({ client := c'
         sStats := { st.sStats with errors := st.sStats.errors + 1 } }, false)

/-- The flush predicate of `_streaming_worker`:
`len(batch) >= self.batch_size or (batch and time.time() - last_flush >= self.flush_interval)`. -/
def shouldFlush (batchLen batchSize now lastFlush interval : Nat) : Bool :=
  decide (batchSize ≤ batchLen) ||
    (decide (batchLen ≠ 0) && decide (interval ≤ now - lastFlush))

/-- Result of one iteration of the `_streaming_worker` loop body. -/
structure IterResult (Msg : Type) where
  queue : List Msg
  batch : List Msg
  lastFlush : Nat
  st : StreamerState
  flushed : Option (List Msg)
  brk : Bool
deriving DecidableEq, Repr

/-- Second half of one iteration of the `while` body of `_streaming_worker`,
after the queue poll: `queue1`/`batch1` are the queue and batch after the
`get`; flush when `should_flush and batch`, then test the shutdown/empty
break condition. `flushed` records the batch handed to `_flush_batch`,
whose boolean result the worker discards. -/
def loopIterAfterGet {Msg Row : Type} (prepareRow : Msg → Row)
    (bytesOf : List Row → Nat) (batchSize interval : Nat) (shutdown : Bool)
    (st : StreamerState) (queue1 batch1 : List Msg) (lastFlush now : Nat)
    (freshTok : String) (outcome : PostOutcome) : IterResult Msg :=
  if shouldFlush batch1.length batchSize now lastFlush interval
      && !batch1.isEmpty then
    { queue := queue1, batch := [], lastFlush := now
      st := (flushBatch prepareRow bytesOf st now freshTok batch1 outcome).1
      flushed := some batch1, brk := shutdown && queue1.isEmpty }
  else
    { queue := queue1, batch := batch1, lastFlush := lastFlush, st := st
      flushed := Option.none, brk := shutdown && queue1.isEmpty }

/-- One iteration of the `while` body of `_streaming_worker`: poll the queue
with a timeout (a message is obtained exactly when the queue is non-empty,
`queue.Empty` is swallowed), append it to the batch, then proceed as in
`loopIterAfterGet`. -/
def loopIter {Msg Row : Type} (prepareRow : Msg → Row)
    (bytesOf : List Row → Nat) (batchSize interval : Nat) (shutdown : Bool)
    (st : StreamerState) (queue batch : List Msg) (lastFlush now : Nat)
    (freshTok : String) (outcome : PostOutcome) : IterResult Msg :=
  match queue with
  | [] => loopIterAfterGet prepareRow bytesOf batchSize interval shutdown st
      [] batch lastFlush now freshTok outcome
  | m :: rest => loopIterAfterGet prepareRow bytesOf batchSize interval
      shutdown st rest (batch ++ [m]) lastFlush now freshTok outcome

/-- The `_streaming_worker` loop after the shutdown signal is set
(`running` false, no further enqueues): while the queue is non-empty the
body keeps dequeuing and flushing per `should_flush`; on exit the remaining
batch is flushed unconditionally (`if batch: self._flush_batch(batch)`).
The function returns the trace of batches handed to `_flush_batch`, which
is independent of the flush outcomes since the worker ignores
the return value of `_flush_batch`. `tau` gives the wall-clock time observed at
the k-th iteration. -/
def drainLoop {Msg : Type} (batchSize interval : Nat) (tau : Nat → Nat)
    (k : Nat) (queue batch : List Msg) (lastFlush : Nat) :
    List (List Msg) :=
  match queue with
  | [] => if batch.isEmpty then [] else [batch]
  | m :: rest =>
    let b1 := batch ++ [m]
    let now := tau k
    if shouldFlush b1.length batchSize now lastFlush interval
        && !b1.isEmpty then
      b1 :: drainLoop batchSize interval tau (k + 1) rest [] now
    else
      drainLoop batchSize interval tau (k + 1) rest b1 lastFlush

/-
Sanitizer (`convert_value`, nested in `append_rows` and in `_prepare_row`;
the two occurrences differ only in a redundant isinstance guard before the
object branch and behave identically on this value universe). Python object
graphs may be cyclic, so the heap is an arbitrary function from object ids
to nodes, and the raw recursive program is modelled by a fuel-indexed
evaluator: running out of fuel is the divergence observation, and the
termination claim is that enough fuel always exists, for every heap.
-/

/-- Primitive Python values passed through unchanged by `convert_value`. -/
inductive PyPrim where
  | pnone
  | pbool (b : Bool)
  | pint (i : Int)
  | pstr (s : String)
deriving DecidableEq, Repr

/-- One node of the Python object graph: `bytes`, `dict`, `list`/`tuple`,
an object with `__dict__`, or a primitive. Children are object ids, so
cycles are representable. -/
inductive HeapNode where
  | bytes (data : List Nat)
  | dict (entries : List (String × Nat))
  | list (elems : List Nat)
  | obj
  | prim (p : PyPrim)

/-- Sanitized output value of `convert_value`. -/
inductive OutValue where
  | str (s : String)
  | dict (entries : List (String × OutValue))
  | list (elems : List OutValue)
  | prim (p : PyPrim)

/-- Lower-case hex digit. -/
def hexDigit (n : Nat) : Char :=
  if n < 10 then Char.ofNat (48 + n) else Char.ofNat (87 + n)

/-- Python `bytes.hex()`: two lower-case hex digits per byte. -/
def bytesHex (data : List Nat) : String :=
  String.join (data.map fun b => String.mk [hexDigit (b / 16), hexDigit (b % 16)])

/-- Option-valued effectful map preserving order (the dict/list
comprehensions of `convert_value`, with divergence as `none`). -/
def optMapM {α β : Type} (f : α → Option β) : List α → Option (List β)
  | [] => some []
  | a :: l =>
    match f a, optMapM f l with
    | some b, some bs => some (b :: bs)
    | _, _ => Option.none

/-- `convert_value(v, depth)` as a fuel-indexed evaluator over an arbitrary
(possibly cyclic) heap. `pyRepr` abstracts Python's built-in `str`; `fuel`
bounds the interpreter's call depth, `depth` is the program's own counter.
The body: `if depth > 10: return str(v)`; bytes become hex strings; dicts
and lists recurse with `depth + 1`; objects with a `__dict__` are
stringified; primitives pass through. -/
def convertValue (pyRepr : Nat → String) (heap : Nat → HeapNode) :
    Nat → Nat → Nat → Option OutValue
  | 0, _, _ => Option.none
  | fuel + 1, depth, r =>
    if depth > 10 then some (.str (pyRepr r))
    else
      match heap r with
      | .bytes data => some (.str (bytesHex data))
      | .dict es =>
        (optMapM (fun kv =>
            (convertValue pyRepr heap fuel (depth + 1) kv.2).map
              (fun o => (kv.1, o))) es).map OutValue.dict
      | .list xs =>
        (optMapM (fun x => convertValue pyRepr heap fuel (depth + 1) x)
            xs).map OutValue.list
      | .obj => some (.str (pyRepr r))
      | .prim p => some (.prim p)

/-
Helper lemmas.
-/

lemma optMapM_congr {α β : Type} (f g : α → Option β) (l : List α)
    (h : ∀ a ∈ l, f a = g a) : optMapM f l = optMapM g l := by
  induction l with
  | nil => rfl
  | cons a l ih =>
    have ha := h a (List.mem_cons_self a l)
    have hl := ih fun x hx => h x (List.mem_cons_of_mem a hx)
    simp only [optMapM, ha, hl]

lemma optMapM_isSome {α β : Type} (f : α → Option β) (l : List α)
    (h : ∀ a ∈ l, (f a).isSome) : (optMapM f l).isSome := by
  induction l with
  | nil => simp [optMapM]
  | cons a l ih =>
    have ha := h a (List.mem_cons_self a l)
    have hl := ih fun x hx => h x (List.mem_cons_of_mem a hx)
    rcases Option.isSome_iff_exists.mp ha with ⟨b, hb⟩
    rcases Option.isSome_iff_exists.mp hl with ⟨bs, hbs⟩
    simp [optMapM, hb, hbs]

/-- One-step unfolding of `convertValue` (controlled, so inner recursive
calls stay folded during rewriting). -/
lemma convertValue_eq (S : Nat → String) (H : Nat → HeapNode)
    (fuel depth r : Nat) :
    convertValue S H (fuel + 1) depth r =
      (if depth > 10 then some (.str (S r))
       else
        match H r with
        | .bytes data => some (.str (bytesHex data))
        | .dict es =>
          (optMapM (fun kv =>
              (convertValue S H fuel (depth + 1) kv.2).map
                (fun o => (kv.1, o))) es).map OutValue.dict
        | .list xs =>
          (optMapM (fun x => convertValue S H fuel (depth + 1) x)
              xs).map OutValue.list
        | .obj => some (.str (S r))
        | .prim p => some (.prim p)) := rfl

/-- Stabilization of the fuel-indexed sanitizer: with at least `12 - depth`
(and at least one) units of fuel the run both terminates and no longer
depends on the fuel. The heap is arbitrary, cyclic graphs included. -/
lemma convertValue_succ (S : Nat → String) (H : Nat → HeapNode) :
    ∀ fuel depth r, 1 ≤ fuel → 12 ≤ depth + fuel →
      convertValue S H fuel depth r = convertValue S H (fuel + 1) depth r ∧
      (convertValue S H fuel depth r).isSome := by
  intro fuel
  induction fuel with
  | zero => intro depth r h1 _; omega
  | succ f ih =>
    intro depth r _ h12
    by_cases hd : depth > 10
    · constructor <;> simp [convertValue, hd]
    · have hf : 1 ≤ f := by omega
      have h12' : 12 ≤ (depth + 1) + f := by omega
      cases hnode : H r with
      | bytes data => constructor <;> simp [convertValue, hd, hnode]
      | dict es =>
        have hcongr : optMapM (fun kv : String × Nat =>
            (convertValue S H f (depth + 1) kv.2).map (fun o => (kv.1, o))) es =
            optMapM (fun kv : String × Nat =>
            (convertValue S H (f + 1) (depth + 1) kv.2).map (fun o => (kv.1, o))) es :=
          optMapM_congr _ _ es fun kv _ => by
            rw [(ih (depth + 1) kv.2 hf h12').1]
        have hsome : (optMapM (fun kv : String × Nat =>
            (convertValue S H f (depth + 1) kv.2).map (fun o => (kv.1, o))) es).isSome :=
          optMapM_isSome _ es fun kv _ => by
            simpa using (ih (depth + 1) kv.2 hf h12').2
        constructor
        · rw [convertValue_eq S H f, convertValue_eq S H (f + 1),
            if_neg hd, if_neg hd, hnode]
          exact congrArg (Option.map OutValue.dict) hcongr
        · rw [convertValue_eq S H f, if_neg hd, hnode]
          show (Option.map OutValue.dict (optMapM (fun kv : String × Nat =>
            (convertValue S H f (depth + 1) kv.2).map
              (fun o => (kv.1, o))) es)).isSome = true
          simpa using hsome
      | list xs =>
        have hcongr : optMapM (fun x => convertValue S H f (depth + 1) x) xs =
            optMapM (fun x => convertValue S H (f + 1) (depth + 1) x) xs :=
          optMapM_congr _ _ xs fun x _ => (ih (depth + 1) x hf h12').1
        have hsome : (optMapM (fun x => convertValue S H f (depth + 1) x) xs).isSome :=
          optMapM_isSome _ xs fun x _ => (ih (depth + 1) x hf h12').2
        constructor
        · rw [convertValue_eq S H f, convertValue_eq S H (f + 1),
            if_neg hd, if_neg hd, hnode]
          exact congrArg (Option.map OutValue.list) hcongr
        · rw [convertValue_eq S H f, if_neg hd, hnode]
          show (Option.map OutValue.list
            (optMapM (fun x => convertValue S H f (depth + 1) x) xs)).isSome = true
          simpa using hsome
      | obj => constructor <;> simp [convertValue, hd, hnode]
      | prim p => constructor <;> simp [convertValue, hd, hnode]

lemma convertValue_add (S : Nat → String) (H : Nat → HeapNode) :
    ∀ k fuel depth r, 1 ≤ fuel → 12 ≤ depth + fuel →
      convertValue S H fuel depth r = convertValue S H (fuel + k) depth r := by
  intro k
  induction k with
  | zero => intro fuel depth r _ _; rfl
  | succ k ih =>
    intro fuel depth r h1 h12
    rw [ih fuel depth r h1 h12]
    have := (convertValue_succ S H (fuel + k) depth r (by omega) (by omega)).1
    rw [this]
    ring_nf

lemma convertValue_fuel_eq (S : Nat → String) (H : Nat → HeapNode)
    (fuel₁ fuel₂ depth r : Nat) (h₁ : 1 ≤ fuel₁) (h₁' : 12 ≤ depth + fuel₁)
    (h₂ : 1 ≤ fuel₂) (h₂' : 12 ≤ depth + fuel₂) :
    convertValue S H fuel₁ depth r = convertValue S H fuel₂ depth r := by
  rcases Nat.le_total fuel₁ fuel₂ with h | h
  · have := convertValue_add S H (fuel₂ - fuel₁) fuel₁ depth r h₁ h₁'
    rwa [Nat.add_sub_cancel' h] at this
  · have := convertValue_add S H (fuel₁ - fuel₂) fuel₂ depth r h₂ h₂'
    rw [Nat.add_sub_cancel' h] at this
    exact this.symm

/-- C9: the recursive sanitization function terminates on every input,
including cyclic or arbitrarily deep heaps, because recursion depth is
capped: with sufficient fuel the run yields a value, the value is
independent of the fuel, any value encountered at depth beyond the cap of
10 is stringified outright, and binary values become hex strings. -/
theorem c9_convert_value_terminates (pyRepr : Nat → String)
    (heap : Nat → HeapNode) (fuel₁ fuel₂ depth r : Nat)
    (hf₁ : 1 ≤ fuel₁) (hd₁ : 12 ≤ depth + fuel₁)
    (hf₂ : 1 ≤ fuel₂) (hd₂ : 12 ≤ depth + fuel₂) :
    (convertValue pyRepr heap fuel₁ depth r).isSome = true ∧
    convertValue pyRepr heap fuel₁ depth r
      = convertValue pyRepr heap fuel₂ depth r ∧
    (10 < depth →
      convertValue pyRepr heap fuel₁ depth r = some (.str (pyRepr r))) ∧
    (∀ data, depth ≤ 10 → heap r = .bytes data →
      convertValue pyRepr heap fuel₁ depth r = some (.str (bytesHex data))) := by
  obtain ⟨f, rfl⟩ : ∃ f, fuel₁ = f + 1 := ⟨fuel₁ - 1, by omega⟩
  refine ⟨(convertValue_succ pyRepr heap (f + 1) depth r hf₁ hd₁).2,
    convertValue_fuel_eq pyRepr heap (f + 1) fuel₂ depth r hf₁ hd₁ hf₂ hd₂,
    fun hcap => by simp [convertValue, hcap],
    fun data hcap hnode => by simp [convertValue, Nat.not_lt.mpr hcap, hnode]⟩

/-- Heap with a self-referential dict (a cycle `d["self"] is d`): the
sanitizer still terminates on it. -/
def cyclicHeap : Nat → HeapNode := fun _ => .dict [("self", 0)]

/-- Witness for C9 at a concrete cyclic heap. -/
theorem c9_witness :
    (convertValue (fun _ => "cyc") cyclicHeap 12 0 0).isSome = true :=
  (c9_convert_value_terminates (fun _ => "cyc") cyclicHeap 12 20 0 0
    (by decide) (by decide) (by decide) (by decide)).1

lemma parsePositionPacket_kind (pes decoded : PyDict) (m : Message)
    (h : parsePositionPacket pes decoded = .ok m) :
    m.packetType = .position := by
  unfold parsePositionPacket at h
  repeat split at h
  all_goals cases h
  all_goals rfl

lemma parseTelemetryPacket_kind (pes decoded : PyDict) (m : Message)
    (h : parseTelemetryPacket pes decoded = .ok m) :
    m.packetType = .telemetry := by
  unfold parseTelemetryPacket at h
  repeat split at h
  all_goals cases h
  all_goals rfl

lemma parseNodeinfoPacket_kind (pes decoded : PyDict) (m : Message)
    (h : parseNodeinfoPacket pes decoded = .ok m) :
    m.packetType = .nodeinfo := by
  unfold parseNodeinfoPacket at h
  repeat split at h
  all_goals cases h
  all_goals rfl

lemma ensureValidToken_offsetToken (st : ClientState) (now : Nat)
    (tok : String) : (ensureValidToken st now tok).offsetToken = st.offsetToken := by
  unfold ensureValidToken
  split <;> rfl

lemma ensureValidToken_continuationToken (st : ClientState) (now : Nat)
    (tok : String) :
    (ensureValidToken st now tok).continuationToken = st.continuationToken := by
  unfold ensureValidToken
  split <;> rfl

lemma ensureValidToken_ingestHost (st : ClientState) (now : Nat)
    (tok : String) : (ensureValidToken st now tok).ingestHost = st.ingestHost := by
  unfold ensureValidToken
  split <;> rfl

lemma ensureValidToken_stats (st : ClientState) (now : Nat)
    (tok : String) : (ensureValidToken st now tok).stats = st.stats := by
  unfold ensureValidToken
  split <;> rfl

/-- Shared concrete session state for concrete instantiations. -/
def demoClient : ClientState :=
  { ingestHost := some ("ingest.example")
    continuationToken := some ("ctoken")
    offsetToken := 7
    scopedToken := some ("bearer")
    tokenExpiry := some 5000
    stats := { rowsSent := 4, batches := 2, bytesSent := 100, errors := 1 } }

/-- Shared concrete streamer state for concrete instantiations. -/
def demoStreamer : StreamerState :=
  { client := demoClient
    sStats := { received := 9, sent := 4, batchesSent := 2, errors := 1 } }

/-
Claim theorems.
-/

/-- C1: for every successful append of a (non-empty) batch on an opened
channel, the offset token advances by exactly one, independent of how many
rows the batch contains (the row list is arbitrary), the call returns the
response data, and a failed append leaves the offset token unchanged —
hence across any sequence of appends the offset increases by exactly one
per success and is constant across failures. -/
theorem c1_offset_advances_by_one {Row : Type} (bytesOf : List Row → Nat)
    (st : ClientState) (now : Nat) (freshTok : String) (rows : List Row)
    (nextTok : Option String)
    (hrows : rows.isEmpty = false)
    (hhost : otruthy st.ingestHost = true)
    (hcont : otruthy st.continuationToken = true) :
    (appendRows bytesOf st now freshTok rows (.success nextTok)).1.offsetToken
      = st.offsetToken + 1 ∧
    (appendRows bytesOf st now freshTok rows (.success nextTok)).2
      = .ok (.data nextTok) ∧
    (appendRows bytesOf st now freshTok rows .failure).1.offsetToken
      = st.offsetToken := by
  unfold appendRows
  simp [hrows, hhost, hcont, ensureValidToken_offsetToken]

/-- Witness for C1 at a concrete session state and a 3-row batch. -/
theorem c1_witness :
    (appendRows (fun l : List Nat => l.length) demoClient 10 ("b2") [5, 6, 7]
      (.success (some ("c2")))).1.offsetToken = demoClient.offsetToken + 1 :=
  (c1_offset_advances_by_one (fun l : List Nat => l.length) demoClient 10
    ("b2") [5, 6, 7] (some ("c2")) rfl rfl rfl).1

/-- C2: every append whose HTTP POST fails with a request error — whether
or not the call first refreshed a stale credential — re-raises the
exception to the caller, leaves `offset_token` and `continuation_token`
exactly as they were before the call, leaves the host and the
rows/batches/bytes statistics untouched, and increments the error counter
by exactly one; moreover the error path itself mutates nothing else: the
final state differs from the state after the (normal-path) credential
check only in the error counter. -/
theorem c2_failure_preserves_state {Row : Type} (bytesOf : List Row → Nat)
    (st : ClientState) (now : Nat) (freshTok : String) (rows : List Row)
    (hrows : rows.isEmpty = false)
    (hhost : otruthy st.ingestHost = true)
    (hcont : otruthy st.continuationToken = true) :
    (appendRows bytesOf st now freshTok rows .failure).2
      = .error .requestError ∧
    (appendRows bytesOf st now freshTok rows .failure).1.offsetToken
      = st.offsetToken ∧
    (appendRows bytesOf st now freshTok rows .failure).1.continuationToken
      = st.continuationToken ∧
    (appendRows bytesOf st now freshTok rows .failure).1.ingestHost
      = st.ingestHost ∧
    (appendRows bytesOf st now freshTok rows .failure).1.stats.errors
      = st.stats.errors + 1 ∧
    (appendRows bytesOf st now freshTok rows .failure).1.stats.rowsSent
      = st.stats.rowsSent ∧
    (appendRows bytesOf st now freshTok rows .failure).1.stats.batches
      = st.stats.batches ∧
    (appendRows bytesOf st now freshTok rows .failure).1.stats.bytesSent
      = st.stats.bytesSent ∧
    (appendRows bytesOf st now freshTok rows .failure).1
      = { ensureValidToken st now freshTok with
            stats := { (ensureValidToken st now freshTok).stats with
                        errors := (ensureValidToken st now freshTok).stats.errors
                          + 1 } } := by
  unfold appendRows
  simp [hrows, hhost, hcont, ensureValidToken_offsetToken,
    ensureValidToken_continuationToken, ensureValidToken_ingestHost,
    ensureValidToken_stats]

/-- Witness for C2 at a concrete session state whose cached credential is
stale (`token_expiry` 5000 < `now` 6000), so the failing call refreshes it
first: the offset token is still preserved. -/
theorem c2_witness :
    (appendRows (fun l : List Nat => l.length) demoClient 6000 ("b2") [5, 6]
      .failure).1.offsetToken = demoClient.offsetToken :=
  (c2_failure_preserves_state (fun l : List Nat => l.length) demoClient 6000
    ("b2") [5, 6] rfl rfl rfl).2.1

/-- C10: calling `append_rows` or `insert_rows` with an empty row list is a
no-op: `insert_rows` returns `0`, `append_rows` returns the empty dict, the
session state is returned unchanged, and the result does not depend on the
HTTP outcome parameter — no request is issued. -/
theorem c10_empty_rows_noop {Row : Type} (bytesOf : List Row → Nat)
    (st : ClientState) (now : Nat) (freshTok : String)
    (outcome : PostOutcome) :
    appendRows bytesOf st now freshTok ([] : List Row) outcome
      = (st, .ok .empty) ∧
    insertRows bytesOf st now freshTok ([] : List Row) outcome
      = (st, .ok 0) := by
  constructor <;> rfl

lemma flushGuard_iff {Msg : Type} (l : List Msg) (bs now lf iv : Nat) :
    (shouldFlush l.length bs now lf iv && !l.isEmpty) = true ↔
      (l ≠ [] ∧ (bs ≤ l.length ∨ iv ≤ now - lf)) := by
  cases l with
  | nil => simp [shouldFlush]
  | cons a t => simp [shouldFlush]

lemma loopIterAfterGet_flushed {Msg Row : Type} (prepareRow : Msg → Row)
    (bytesOf : List Row → Nat) (batchSize interval : Nat) (shutdown : Bool)
    (st : StreamerState) (queue1 batch1 : List Msg) (lastFlush now : Nat)
    (freshTok : String) (outcome : PostOutcome) :
    (loopIterAfterGet prepareRow bytesOf batchSize interval shutdown st
        queue1 batch1 lastFlush now freshTok outcome).flushed =
      (if shouldFlush batch1.length batchSize now lastFlush interval
          && !batch1.isEmpty then some batch1 else Option.none) := by
  unfold loopIterAfterGet
  split <;> rfl

lemma drainLoop_join {Msg : Type} (batchSize interval : Nat)
    (tau : Nat → Nat) :
    ∀ (queue : List Msg) (k : Nat) (batch : List Msg) (lastFlush : Nat),
      (drainLoop batchSize interval tau k queue batch lastFlush).flatten =
        batch ++ queue := by
  intro queue
  induction queue with
  | nil =>
    intro k batch lf
    by_cases hb : batch.isEmpty
    · rw [List.isEmpty_iff.mp hb]
      simp [drainLoop]
    · simp [drainLoop, hb]
  | cons m rest ih =>
    intro k batch lf
    unfold drainLoop
    by_cases hg : (shouldFlush (batch ++ [m]).length batchSize (tau k) lf
        interval && !(batch ++ [m]).isEmpty) = true
    · rw [if_pos hg]
      simp [ih]
    · rw [if_neg hg, ih]
      simp

lemma drainLoop_ne_nil {Msg : Type} (batchSize interval : Nat)
    (tau : Nat → Nat) :
    ∀ (queue : List Msg) (k : Nat) (batch : List Msg) (lastFlush : Nat)
      (b : List Msg),
      b ∈ drainLoop batchSize interval tau k queue batch lastFlush →
        b ≠ [] := by
  intro queue
  induction queue with
  | nil =>
    intro k batch lf b hb
    by_cases hbe : batch.isEmpty
    · simp [drainLoop, hbe] at hb
    · simp [drainLoop, hbe] at hb
      subst hb
      exact fun hnil => hbe (by simp [hnil])
  | cons m rest ih =>
    intro k batch lf b hb
    unfold drainLoop at hb
    by_cases hg : (shouldFlush (batch ++ [m]).length batchSize (tau k) lf
        interval && !(batch ++ [m]).isEmpty) = true
    · rw [if_pos hg] at hb
      rcases List.mem_cons.mp hb with h | h
      · subst h
        simp
      · exact ih (k + 1) [] (tau k) b h
    · rw [if_neg hg] at hb
      exact ih (k + 1) (batch ++ [m]) lf b hb

/-- C7: once the shutdown signal is set, the worker keeps dequeuing until
the queue is empty and finally flushes whatever remains in the batch, even
below `batch_size` with the interval not elapsed: the concatenation of all
batches handed to `_flush_batch` is exactly the pending batch followed by
the whole queue, in order, and every flushed batch is non-empty — no
accepted reading is dropped by the worker loop. -/
theorem c7_shutdown_drain_no_loss {Msg : Type} (batchSize interval : Nat)
    (tau : Nat → Nat) (k : Nat) (queue batch : List Msg) (lastFlush : Nat) :
    (drainLoop batchSize interval tau k queue batch lastFlush).flatten =
      batch ++ queue ∧
    ∀ b ∈ drainLoop batchSize interval tau k queue batch lastFlush,
      b ≠ [] :=
  ⟨drainLoop_join batchSize interval tau queue k batch lastFlush,
   fun b hb => drainLoop_ne_nil batchSize interval tau queue k batch
     lastFlush b hb⟩

/-- Witness for C7: a shutdown drain of a 3-element queue with a pending
1-element batch hands every reading to the flusher, in order. -/
theorem c7_witness :
    (drainLoop 10 60 (fun _ => 0) 0 [1, 2, 3] [4] 0).flatten
      = [4] ++ [1, 2, 3] :=
  (c7_shutdown_drain_no_loss 10 60 (fun _ => 0) 0 [1, 2, 3] ([4] : List Nat)
    0).1

/-- The flush trigger exactly as claim C5 words it: the batch length has
reached `batch_size`, or the batch is non-empty and at least
`flush_interval` has elapsed since the last flush. (Definition taken from
the claim's wording, for comparison with the code's guard, which further
requires the batch to be non-empty before flushing.) -/
def claimC5Cond (batchLen batchSize now lastFlush interval : Nat) : Bool :=
  decide (batchSize ≤ batchLen) ||
    (decide (batchLen ≠ 0) && decide (interval ≤ now - lastFlush))

/-- Counterexample to C5 as stated: with `batch_size = 0` and an empty
batch, the claim's condition holds (the batch length, 0, has reached the
configured `batch_size`), yet the worker performs no flush — the code's
guard `if should_flush and batch:` additionally requires a non-empty
batch. -/
theorem c5_counterexample :
    claimC5Cond 0 0 9 0 5 = true ∧
    (loopIter (fun n : Nat => n) (fun l : List Nat => l.length) 0 5 false
      demoStreamer ([] : List Nat) ([] : List Nat) 0 9 ("tok")
      (.success (some ("c")))).flushed = Option.none := by
  constructor <;> rfl

/-- C5 (amended): in each worker-loop iteration a flush happens exactly
when the batch after the poll is non-empty and (its length has reached
`batch_size`, or at least `flush_interval` elapsed since the last flush);
when a flush happens it flushes exactly that batch; and no state of the
worker loop — the drain phase included — ever hands an empty batch to the
flusher. -/
theorem c5_flush_condition {Msg Row : Type} (prepareRow : Msg → Row)
    (bytesOf : List Row → Nat) (batchSize interval : Nat) (shutdown : Bool)
    (st : StreamerState) (queue batch : List Msg) (lastFlush now : Nat)
    (freshTok : String) (outcome : PostOutcome) :
    ((loopIter prepareRow bytesOf batchSize interval shutdown st queue batch
        lastFlush now freshTok outcome).flushed ≠ Option.none ↔
      (batch ++ queue.head?.toList ≠ [] ∧
        (batchSize ≤ (batch ++ queue.head?.toList).length ∨
          interval ≤ now - lastFlush))) ∧
    ((loopIter prepareRow bytesOf batchSize interval shutdown st queue batch
        lastFlush now freshTok outcome).flushed = Option.none ∨
     (loopIter prepareRow bytesOf batchSize interval shutdown st queue batch
        lastFlush now freshTok outcome).flushed =
          some (batch ++ queue.head?.toList)) ∧
    (∀ (tau : Nat → Nat) (k : Nat) (q bt : List Msg) (lf : Nat),
      ∀ b ∈ drainLoop batchSize interval tau k q bt lf, b ≠ []) := by
  refine ⟨?_, ?_, fun tau k q bt lf b hb =>
    drainLoop_ne_nil batchSize interval tau q k bt lf b hb⟩
  · cases queue with
    | nil =>
      simp only [loopIter, loopIterAfterGet_flushed, List.head?_nil,
        Option.toList_none, List.append_nil]
      split
      · rename_i hg
        rw [flushGuard_iff] at hg
        exact iff_of_true (by simp) hg
      · rename_i hg
        rw [flushGuard_iff] at hg
        exact iff_of_false (by simp) hg
    | cons m rest =>
      simp only [loopIter, loopIterAfterGet_flushed, List.head?_cons,
        Option.toList_some]
      split
      · rename_i hg
        rw [flushGuard_iff] at hg
        exact iff_of_true (by simp) hg
      · rename_i hg
        rw [flushGuard_iff] at hg
        exact iff_of_false (by simp) hg
  · cases queue with
    | nil =>
      simp only [loopIter, loopIterAfterGet_flushed, List.head?_nil,
        Option.toList_none, List.append_nil]
      split
      · right; rfl
      · left; rfl
    | cons m rest =>
      simp only [loopIter, loopIterAfterGet_flushed, List.head?_cons,
        Option.toList_some]
      split
      · right; rfl
      · left; rfl

/-- Witness for C5 (amended) at a concrete iteration: queue `[1]`, empty
pending batch, `batch_size` 1, so the flush fires with exactly `[1]`. -/
theorem c5_witness :
    ((loopIter (fun n : Nat => n) (fun l : List Nat => l.length) 1 5 false
        demoStreamer [1] ([] : List Nat) 0 9 ("tok")
        (.success (some ("c")))).flushed ≠ Option.none ↔
      (([] : List Nat) ++ [1].head?.toList ≠ [] ∧
        (1 ≤ (([] : List Nat) ++ [1].head?.toList).length ∨ 5 ≤ 9 - 0))) :=
  (c5_flush_condition (fun n : Nat => n) (fun l : List Nat => l.length) 1 5
    false demoStreamer [1] ([] : List Nat) 0 9 ("tok")
    (.success (some ("c")))).1

lemma flushBatch_failure {Msg Row : Type} (prepareRow : Msg → Row)
    (bytesOf : List Row → Nat) (st : StreamerState) (now : Nat)
    (freshTok : String) (messages : List Msg)
    (hne : messages.isEmpty = false)
    (hhost : otruthy st.client.ingestHost = true)
    (hcont : otruthy st.client.continuationToken = true) :
    flushBatch prepareRow bytesOf st now freshTok messages .failure =
      ({ client := { ensureValidToken st.client now freshTok with
                      stats := { st.client.stats with
                                  errors := st.client.stats.errors + 1 } }
         sStats := { st.sStats with errors := st.sStats.errors + 1 } },
       false) := by
  cases messages with
  | nil => simp at hne
  | cons m ms =>
    unfold flushBatch insertRows appendRows
    simp [hhost, hcont, ensureValidToken_stats]

/-- C6: when the flush of a (non-empty, triggered) batch fails, the batch
is discarded rather than requeued — the resulting batch is empty and the
queue is only missing the dequeued element — both the streamer's and the
client's error counters increase by exactly one, the sent/batch statistics,
the offset token and the continuation token are unchanged, and the loop's
break flag is the same as on the success path, so the worker proceeds to
accumulate the next batch: one failed flush loses at most that one batch
and never stops the pipeline. -/
theorem c6_failed_flush_drops_batch {Msg Row : Type} (prepareRow : Msg → Row)
    (bytesOf : List Row → Nat) (batchSize interval : Nat) (shutdown : Bool)
    (st : StreamerState) (queue batch : List Msg) (lastFlush now : Nat)
    (freshTok : String)
    (hhost : otruthy st.client.ingestHost = true)
    (hcont : otruthy st.client.continuationToken = true)
    (hguard : (shouldFlush (batch ++ queue.head?.toList).length batchSize now
        lastFlush interval
        && !(batch ++ queue.head?.toList).isEmpty) = true) :
    loopIter prepareRow bytesOf batchSize interval shutdown st queue batch
        lastFlush now freshTok .failure =
      { queue := queue.tail
        batch := []
        lastFlush := now
        st := { client := { ensureValidToken st.client now freshTok with
                    stats := { st.client.stats with
                                errors := st.client.stats.errors + 1 } }
                sStats := { st.sStats with
                             errors := st.sStats.errors + 1 } }
        flushed := some (batch ++ queue.head?.toList)
        brk := shutdown && queue.tail.isEmpty } ∧
    (loopIter prepareRow bytesOf batchSize interval shutdown st queue batch
        lastFlush now freshTok .failure).st.client.offsetToken
      = st.client.offsetToken ∧
    (loopIter prepareRow bytesOf batchSize interval shutdown st queue batch
        lastFlush now freshTok .failure).st.client.continuationToken
      = st.client.continuationToken ∧
    (loopIter prepareRow bytesOf batchSize interval shutdown st queue batch
        lastFlush now freshTok .failure).st.sStats.sent = st.sStats.sent := by
  have hmain : loopIter prepareRow bytesOf batchSize interval shutdown st
      queue batch lastFlush now freshTok .failure =
      { queue := queue.tail
        batch := []
        lastFlush := now
        st := { client := { ensureValidToken st.client now freshTok with
                    stats := { st.client.stats with
                                errors := st.client.stats.errors + 1 } }
                sStats := { st.sStats with
                             errors := st.sStats.errors + 1 } }
        flushed := some (batch ++ queue.head?.toList)
        brk := shutdown && queue.tail.isEmpty } := by
    have hne : (batch ++ queue.head?.toList).isEmpty = false := by
      rcases Bool.and_eq_true_iff.mp hguard with ⟨_, hr⟩
      simp at hr
      simp
      exact hr
    cases queue with
    | nil =>
      simp only [List.head?_nil, Option.toList_none, List.append_nil]
        at hguard hne
      simp only [loopIter, loopIterAfterGet, hguard, if_true,
        flushBatch_failure prepareRow bytesOf st now freshTok batch hne hhost
          hcont]
      simp
    | cons m rest =>
      simp only [List.head?_cons, Option.toList_some] at hguard hne
      simp only [loopIter, loopIterAfterGet, hguard, if_true,
        flushBatch_failure prepareRow bytesOf st now freshTok (batch ++ [m])
          hne hhost hcont]
      simp
  refine ⟨hmain, ?_, ?_, ?_⟩ <;>
    rw [hmain] <;>
    simp [ensureValidToken_offsetToken, ensureValidToken_continuationToken]

/-- Witness for C6: a failed flush of the single queued reading at
`batch_size` 1 on the concrete session. -/
theorem c6_witness :
    (loopIter (fun n : Nat => n) (fun l : List Nat => l.length) 1 5 false
        demoStreamer [1] ([] : List Nat) 0 9 ("tok")
        .failure).st.sStats.sent = demoStreamer.sStats.sent :=
  (c6_failed_flush_drops_batch (fun n : Nat => n)
    (fun l : List Nat => l.length) 1 5 false demoStreamer [1]
    ([] : List Nat) 0 9 ("tok") rfl rfl rfl).2.2.2

lemma onReceiveE_dict (pes decoded : PyDict)
    (hdec : (dlookup pes ("decoded")).getD (.dict []) = .dict decoded) :
    onReceiveE (.dict pes) =
      (if isPositionOf decoded then parsePositionPacket pes decoded
       else if isTextOf decoded then .ok (parseTextPacket pes decoded)
       else if isTelemetryOf decoded then parseTelemetryPacket pes decoded
       else if isNodeinfoOf decoded then parseNodeinfoPacket pes decoded
       else .ok (parsePacket pes)) := by
  simp only [onReceiveE]
  rw [hdec]

/-- The classification counterexample packet: explicit numeric port code 67
(the telemetry port) together with both a `telemetry` and a `position`
payload key. -/
def c3Packet : PyVal :=
  .dict [("decoded", .dict [("portnum", .int 67), ("telemetry", .dict []),
    ("position", .dict [])])]

/-- Counterexample to C3 as stated: this packet's explicit numeric port
code 67 names telemetry, yet the duck-typed `position` payload key of the
higher-priority kind wins and the reading is classified `position` — the
port code does not take precedence over payload-key detection. -/
theorem c3_counterexample :
    (onReceive c3Packet).map Message.packetType = some PacketKind.position ∧
    PacketKind.position ≠ PacketKind.telemetry := by
  exact ⟨rfl, by decide⟩

/-- C3 (amended): every reading produced by `_on_receive` carries the kind
chosen by the priority order position > text > telemetry > node-info > raw
with first match winning, where each kind matches if its port code matches
or its type-specific payload key is present — port-code evidence and
payload-key evidence are disjuncts of equal rank, so a numeric port code
does not override the payload key of a higher-priority kind. -/
theorem c3_kind_priority (pes decoded : PyDict) (m : Message)
    (hdec : (dlookup pes ("decoded")).getD (.dict []) = .dict decoded)
    (hm : onReceive (.dict pes) = some m) :
    m.packetType = detectKind decoded := by
  simp only [onReceive, onReceiveE_dict pes decoded hdec] at hm
  unfold detectKind
  by_cases h1 : isPositionOf decoded = true
  · rw [if_pos h1] at hm ⊢
    cases hp : parsePositionPacket pes decoded with
    | ok a =>
      rw [hp] at hm
      simp at hm
      subst hm
      exact parsePositionPacket_kind pes decoded a hp
    | error e =>
      rw [hp] at hm
      simp at hm
  · rw [if_neg h1] at hm ⊢
    by_cases h2 : isTextOf decoded = true
    · rw [if_pos h2] at hm ⊢
      simp at hm
      subst hm
      rfl
    · rw [if_neg h2] at hm ⊢
      by_cases h3 : isTelemetryOf decoded = true
      · rw [if_pos h3] at hm ⊢
        cases hp : parseTelemetryPacket pes decoded with
        | ok a =>
          rw [hp] at hm
          simp at hm
          subst hm
          exact parseTelemetryPacket_kind pes decoded a hp
        | error e =>
          rw [hp] at hm
          simp at hm
      · rw [if_neg h3] at hm ⊢
        by_cases h4 : isNodeinfoOf decoded = true
        · rw [if_pos h4] at hm ⊢
          cases hp : parseNodeinfoPacket pes decoded with
          | ok a =>
            rw [hp] at hm
            simp at hm
            subst hm
            exact parseNodeinfoPacket_kind pes decoded a hp
          | error e =>
            rw [hp] at hm
            simp at hm
        · rw [if_neg h4] at hm ⊢
          simp at hm
          subst hm
          rfl

/-- Witness for C3 (amended): a packet with numeric port code 1 is
classified `text`, matching the standalone priority rule. -/
theorem c3_witness :
    (⟨PacketKind.text, PyVal.none, PyVal.none, PyVal.none,
        PyVal.str ("")⟩ : Message).packetType
      = detectKind [("portnum", PyVal.int 1)] :=
  c3_kind_priority [("decoded", PyVal.dict [("portnum", PyVal.int 1)])]
    [("portnum", PyVal.int 1)]
    ⟨PacketKind.text, PyVal.none, PyVal.none, PyVal.none, PyVal.str ("")⟩
    rfl rfl

/-- The C4 counterexample packet: a position payload whose fixed-point
coordinates are both `0` and whose floating-point coordinates are absent. -/
def c4Packet : PyVal :=
  .dict [("decoded", .dict [("position", .dict [("latitudeI", .int 0),
    ("longitudeI", .int 0)])])]

/-- Counterexample to C4 as stated: for a fixed-point latitude of `0` (a
valid integer value the claim explicitly includes) with the floating field
absent, the normalized reading's latitude is absent (`None`), not
`0 / 1e7 = 0.0` — the source guards the conversion with Python truthiness,
under which `0` is falsy. -/
theorem c4_counterexample :
    (onReceive c4Packet).map Message.latitude = some PyVal.none ∧
    (onReceive c4Packet).map Message.latitude
      ≠ some (.rat (((0 : Int) : ℚ) / 10000000)) := by
  refine ⟨rfl, fun h => ?_⟩
  rw [show (onReceive c4Packet).map Message.latitude = some PyVal.none
    from rfl] at h
  exact PyVal.noConfusion (Option.some.inj h)

/-- C4 (amended): for every position packet whose floating-point
latitude/longitude fields are absent and whose fixed-point fields
`latitudeI`/`longitudeI` hold non-zero integers `i`/`j`, the normalized
reading has kind `position`, latitude `i / 1e7` and longitude `j / 1e7`;
for a fixed-point value of `0` the coordinate is left absent (see the
counterexample). -/
theorem c4_fixed_point_conversion (pes decoded pos : PyDict) (i j : Int)
    (hdec : (dlookup pes ("decoded")).getD (.dict []) = .dict decoded)
    (hposKey : dlookup decoded ("position") = some (.dict pos))
    (hlat : (dlookup pos ("latitude")).getD .none = .none)
    (hlatI : (dlookup pos ("latitudeI")).getD .none = .int i)
    (hi : i ≠ 0)
    (hlon : (dlookup pos ("longitude")).getD .none = .none)
    (hlonI : (dlookup pos ("longitudeI")).getD .none = .int j)
    (hj : j ≠ 0) :
    (onReceive (.dict pes)).map Message.packetType
      = some PacketKind.position ∧
    (onReceive (.dict pes)).map Message.latitude
      = some (.rat ((i : ℚ) / 10000000)) ∧
    (onReceive (.dict pes)).map Message.longitude
      = some (.rat ((j : ℚ) / 10000000)) := by
  have h1 : isPositionOf decoded = true := by
    unfold isPositionOf
    simp [hposKey]
  have hp : parsePositionPacket pes decoded =
      .ok { parsePacket pes with
              packetType := .position
              latitude := .rat ((i : ℚ) / 10000000)
              longitude := .rat ((j : ℚ) / 10000000) } := by
    unfold parsePositionPacket
    rw [hposKey]
    simp only [Option.getD_some]
    rw [hlat, hlatI, hlon, hlonI]
    simp [resolveCoord, pyTruthy, pyDivTen7, hi, hj]
  have hone : onReceive (.dict pes) =
      some { parsePacket pes with
              packetType := .position
              latitude := .rat ((i : ℚ) / 10000000)
              longitude := .rat ((j : ℚ) / 10000000) } := by
    simp only [onReceive, onReceiveE_dict pes decoded hdec, h1, if_true, hp]
  refine ⟨?_, ?_, ?_⟩ <;> rw [hone] <;> rfl

/-- Witness for C4 (amended) at the spec's end-to-end scenario C
coordinates. -/
theorem c4_witness :
    (onReceive (.dict [("decoded", PyVal.dict [("position",
        PyVal.dict [("latitudeI", PyVal.int 402915328),
          ("longitudeI", PyVal.int (-745275392))])])])).map Message.latitude
      = some (.rat (((402915328 : Int) : ℚ) / 10000000)) :=
  (c4_fixed_point_conversion
    [("decoded", PyVal.dict [("position", PyVal.dict
      [("latitudeI", PyVal.int 402915328),
       ("longitudeI", PyVal.int (-745275392))])])]
    [("position", PyVal.dict [("latitudeI", PyVal.int 402915328),
      ("longitudeI", PyVal.int (-745275392))])]
    [("latitudeI", PyVal.int 402915328),
     ("longitudeI", PyVal.int (-745275392))]
    402915328 (-745275392) rfl rfl rfl rfl (by decide) rfl rfl
    (by decide)).2.1

/-- Boolean test for a Python dict value. -/
def isDictVal : PyVal → Bool
  | .dict _ => true
  | _ => false

/-- Counterexample to C8 as stated: the empty packet `{}` does not yield
nothing — it normalizes to a `raw` reading that is queued and delivered to
the callback. -/
theorem c8_counterexample :
    (onReceive (PyVal.dict [])).map Message.packetType
      = some PacketKind.raw ∧
    (processPacket [] (PyVal.dict [])).2 = true := by
  constructor <;> rfl

/-- C8 (amended): the receiver callback never propagates an exception
(`onReceive` is total, with every raising execution mapped to `none`);
a packet on which parsing raises — every non-dict packet in particular —
yields nothing: it is not queued and the downstream callback is not
invoked, while any produced reading is queued and delivered; however an
empty dict packet is not dropped — it yields a `raw` reading. -/
theorem c8_never_raises_drop_policy :
    (∀ p : PyVal, isDictVal p = false → onReceive p = Option.none) ∧
    (∀ (q : List Message) (p : PyVal), onReceive p = Option.none →
      processPacket q p = (q, false)) ∧
    (∀ (q : List Message) (p : PyVal) (m : Message), onReceive p = some m →
      processPacket q p = (q ++ [m], true)) ∧
    (onReceive (PyVal.dict [])).map Message.packetType
      = some PacketKind.raw := by
  refine ⟨?_, ?_, ?_, rfl⟩
  · intro p hp
    cases p <;> first | rfl | simp [isDictVal] at hp
  · intro q p h
    unfold processPacket
    rw [h]
  · intro q p m h
    unfold processPacket
    rw [h]

/-- Witness for C8 (amended): a non-dict packet is dropped without queueing
or callback. -/
theorem c8_witness : onReceive (PyVal.int 5) = Option.none :=
  c8_never_raises_drop_policy.1 (PyVal.int 5) rfl
